import Mathlib

/-!
Shallow embedding of the Synthetic Persona Platform server (server.js):
persona registry, history normalizer, prompt assembler, completion-client
response extraction, HTTP Basic Auth gate and the request router.

JavaScript strings are modelled as Lean strings (one Char per UTF-16 unit of
the source; the texts involved are plain text, so this is exact).  JavaScript
numbers only occur as small integers here and are modelled as Int.  Client
supplied JSON values are modelled by the JsValue inductive below.
-/

set_option maxHeartbeats 1000000

namespace SyntheticPersonas

/-- Model of a JSON / JavaScript value as received from clients.  A missing
object property is represented by Option.none at the access site. -/
inductive JsValue where
  | null : JsValue
  | bool (b : Bool) : JsValue
  | num (n : Int) : JsValue
  | str (s : String) : JsValue
  | arr (elems : List JsValue) : JsValue
  | obj (fields : List (String × JsValue)) : JsValue

namespace JsValue

/-- JavaScript truthiness of a value. -/
def truthy : JsValue → Bool
  | .null => false
  | .bool b => b
  | .num n => n != 0
  | .str s => s != ""
  | .arr _ => true
  | .obj _ => true

/-- Property access v.k: returns none (undefined) unless v is an object with
the property.  Association lists here have distinct keys. -/
def getProp : JsValue → String → Option JsValue
  | .obj fields, k => (fields.find? (fun f => f.1 == k)).map (·.2)
  | _, _ => none

/-- The JavaScript expression x || d applied to a possibly undefined x. -/
def orDefault (v : Option JsValue) (d : JsValue) : JsValue :=
  match v with
  | some x => if truthy x then x else d
  | none => d

mutual

/-- The JavaScript String(x) conversion. -/
def jsToString : JsValue → String
  | .null => "null"
  | .bool true => "true"
  | .bool false => "false"
  | .num n => toString n
  | .str s => s
  | .arr elems => String.intercalate "," (jsToStringElems elems)
  | .obj _ => "[object Object]"

/-- Element stringification used by the join of Array.prototype.toString:
null elements become the empty string. -/
def jsToStringElems : List JsValue → List String
  | [] => []
  | .null :: vs => "" :: jsToStringElems vs
  | v :: vs => jsToString v :: jsToStringElems vs

end

end JsValue

/-- Whitespace recognised by String.prototype.trim (ASCII part; the Unicode
space code points never occur in the texts involved). -/
def isJsSpace (c : Char) : Bool :=
  c == ' ' || c == '\t' || c == '\n' || c == '\r' || c == '\x0b' || c == '\x0c'

/-- The JavaScript s.trim(): strip leading and trailing whitespace. -/
def jsTrim (s : String) : String :=
  ⟨((s.data.dropWhile isJsSpace).reverse.dropWhile isJsSpace).reverse⟩

/-- The JavaScript s.toLowerCase() (ASCII range, which covers the mode
strings it is applied to). -/
def jsToLower (s : String) : String :=
  ⟨s.data.map Char.toLower⟩

/-- The JavaScript s.slice(0, n) on strings: the first n characters. -/
def jsSliceTo (s : String) (n : Nat) : String :=
  ⟨s.data.take n⟩

/-- The JavaScript s.slice(-n) on strings: the last n characters, except
that slice(-0) is slice(0), the whole string. -/
def jsSliceLastStr (s : String) (n : Nat) : String :=
  if n = 0 then s else ⟨s.data.drop (s.data.length - n)⟩

/-- The JavaScript a.slice(-n) on arrays: the last n elements, except that
slice(-0) is slice(0), the whole array. -/
def jsSliceLast (n : Nat) (xs : List α) : List α :=
  if n = 0 then xs else xs.drop (xs.length - n)

/-- The JavaScript array join with separator sep. -/
def joinSep (sep : String) : List String → String
  | [] => ""
  | [x] => x
  | x :: xs => x ++ sep ++ joinSep sep xs

/- ### Configuration constants (server.js lines 324-326).
The values are the defaults used when the corresponding environment
variables are absent; environment handling is outside the embedded core. -/

def DEFAULT_MODEL : String := "gpt-4.1-mini"

def MAX_HISTORY_MESSAGES : Nat := 24

def MAX_DOSSIER_CHARS : Nat := 90000

/- ### History normalizer (server.js normalizeHistory, lines 539-552). -/

/-- One sanitized conversation turn as produced by normalizeHistory. -/
structure Turn where
  role : String
  content : String
  deriving DecidableEq, Repr

/-- The role property of a raw history entry, as read by normalizeHistory
after its filter has established that it is the string user or assistant. -/
def roleOf (m : JsValue) : String :=
  match m.getProp "role" with
  | some (.str s) => s
  | _ => ""

/-- The filter predicate of normalizeHistory: message && (message.role ===
user || message.role === assistant). -/
def keepsEntry (m : JsValue) : Bool :=
  m.truthy && (match m.getProp "role" with
    | some (.str s) => s == "user" || s == "assistant"
    | _ => false)

/-- The map step of normalizeHistory: role kept, content coerced by
String(message.content || ""), capped at 4000 characters by slice(0, 4000). -/
def toTurn (m : JsValue) : Turn :=
  { role := roleOf m
    content := jsSliceTo (JsValue.jsToString (JsValue.orDefault (m.getProp "content") (.str ""))) 4000 }

/-- The surviving turns before the final length cap: filter on role and
truthiness, coerce and cap content, drop empty-content turns. -/
def survivingTurns (history : JsValue) : List Turn :=
  match history with
  | .arr msgs => ((msgs.filter keepsEntry).map toTurn).filter (fun t => t.content.length > 0)
  | _ => []

/-- server.js normalizeHistory: non-arrays give the empty history; otherwise
survivors capped to the last MAX_HISTORY_MESSAGES entries by slice(-N). -/
def normalizeHistory (history : JsValue) : List Turn :=
  match history with
  | .arr _ => jsSliceLast MAX_HISTORY_MESSAGES (survivingTurns history)
  | _ => []

/- ### Persona registry (server.js loadPersonas, lines 405-418).
File reading happens once at startup and is outside the embedded core; a
Persona value models one fully loaded registry record. -/

/-- One loaded persona record: the row from personas.json together with the
loaded dossier text and parsed policy JSON. -/
structure Persona where
  id : String
  code : String
  name : String
  persona_type : String
  tagline : String
  dossier_path : String
  policy_path : String
  api_key_env : String
  model_env : String
  dossier : String
  policy : JsValue

/-- The display_name computed in loadPersonas. -/
def display_name (p : Persona) : String :=
  p.name ++ " (" ++ p.persona_type ++ ")"

/-- Lookup in the personaById map built from the registry list.  Ids are
unique across the registry, so first-match lookup coincides with the map. -/
def findPersona (registry : List Persona) (id : String) : Option Persona :=
  registry.find? (fun p => p.id == id)

/- ### Dossier truncation (server.js truncateText, lines 420-428). -/

/-- The fixed elision marker inserted between head and tail, with the blank
lines around it from the template literal. -/
def ELISION_MARKER : String := "\n\n[... dossier truncated for context length ...]\n\n"

/-- server.js truncateText.  Math.floor(maxChars * 0.8) and
Math.floor(maxChars * 0.2) are modelled as maxChars * 8 / 10 and
maxChars * 2 / 10 in natural division, which agree with the floating point
computation at the configured budget of 90000. -/
def truncateText (value : String) (maxChars : Nat) : String :=
  if value.length ≤ maxChars then value
  else jsSliceTo value (maxChars * 8 / 10) ++ ELISION_MARKER
    ++ jsSliceLastStr value (maxChars * 2 / 10)

/- ### JSON serialization of the policy (JSON.stringify(policy, null, 2)).
The serialized text enters the system prompt as an opaque block; this models
the standard two-space pretty printer. -/

/-- Hexadecimal digit for escape sequences. -/
def hexDigit (n : Nat) : Char :=
  if n < 10 then Char.ofNat (48 + n) else Char.ofNat (87 + n)

/-- JSON escaping of one character. -/
def jsonEscapeChar (c : Char) : String :=
  if c = '"' then "\\\""
  else if c = '\\' then "\\\\"
  else if c = '\n' then "\\n"
  else if c = '\r' then "\\r"
  else if c = '\t' then "\\t"
  else if c.toNat < 0x20 then
    "\\u00" ++ String.singleton (hexDigit (c.toNat / 16)) ++ String.singleton (hexDigit (c.toNat % 16))
  else String.singleton c

/-- JSON string literal for s. -/
def jsonQuote (s : String) : String :=
  "\"" ++ joinSep "" (s.data.map jsonEscapeChar) ++ "\""

/-- Indentation of n spaces. -/
def jsonPad (n : Nat) : String :=
  ⟨List.replicate n ' '⟩

mutual

/-- JSON.stringify with two-space indentation, at ambient indent level ind. -/
def jsonStringifyAux : Nat → JsValue → String
  | _, .null => "null"
  | _, .bool true => "true"
  | _, .bool false => "false"
  | _, .num n => toString n
  | _, .str s => jsonQuote s
  | _, .arr [] => "[]"
  | ind, .arr (e :: es) =>
    "[\n" ++ joinSep ",\n" (jsonStringifyElems (ind + 2) (e :: es)) ++ "\n" ++ jsonPad ind ++ "]"
  | _, .obj [] => "\x7b\x7d"
  | ind, .obj (f :: fs) =>
    "\x7b\n" ++ joinSep ",\n" (jsonStringifyFields (ind + 2) (f :: fs)) ++ "\n" ++ jsonPad ind ++ "\x7d"

/-- Serialized array elements, one line each. -/
def jsonStringifyElems : Nat → List JsValue → List String
  | _, [] => []
  | ind, v :: vs => (jsonPad ind ++ jsonStringifyAux ind v) :: jsonStringifyElems ind vs

/-- Serialized object fields, one line each. -/
def jsonStringifyFields : Nat → List (String × JsValue) → List String
  | _, [] => []
  | ind, (k, v) :: fs =>
    (jsonPad ind ++ jsonQuote k ++ ": " ++ jsonStringifyAux ind v) :: jsonStringifyFields ind fs

end

/-- JSON.stringify(x, null, 2). -/
def jsonStringify2 (v : JsValue) : String :=
  jsonStringifyAux 0 v

/- ### Prompt assembler (server.js lines 336-387 and 581-623). -/

/-- The fixed instructional template BASE_PROMPT (server.js lines 336-381). -/
def BASE_PROMPT : String :=
  "You are Persona Simulator, a synthetic persona simulation engine.\n\nPURPOSE\nSimulate a persona based ONLY on the user-provided dossier uploaded into this GPT. Persona fidelity is more important than being broadly helpful.\n\nFIRST REPLY ONLY\nInclude once: \"FYI: I\x27m a synthetic simulation of this persona-not a real person.\"\n\nLOADING A PERSONA\n1. Ingest the dossier and interview notes and build an internal model: identity, context, goals, pains, behaviors, decision drivers, knowledge boundaries, voice/tone.\n2. If the dossier or notes is too thin, ask up to 3 clarifying questions-otherwise, proceed.\n\nROLEPLAY RULES\n- Speak in first person as a real person, not a summary.\n- Stay consistent with the dossier across turns.\n- Knowledge boundaries: Answer what the persona would know; say \"I don\x27t know\" for what they wouldn\x27t.\n- No invention: Don\x27t fabricate specifics (addresses, salaries, diagnoses) not in the dossier.\n- Prefer general plausibility over fake precision.\n- Do not ask the user questions while in character.\n- Do not break character to help the user.\n\nMODES\nAt the beginning of the interaction ask the user how they would like to interact with the persona in the following modes:\n- Interview Mode (user asks questions): Answer candidly + example + what matters to you.\n- Scenario Mode (user proposes a situation): Walk through: notice -> assume -> act -> where you\x27d give up.\n- Usability Mode (user describes a flow/prototype): Think aloud naturally as the persona.\n\nOOC COMMANDS\nRespond [Out of Character] when user types: OOC:, /meta, /debrief, /persona-summary, /assumptions\n\n- /persona-summary -> Traits, needs, pains, decision drivers, voice notes, unknowns\n- /assumptions -> List gaps you\x27re filling in\n- /debrief -> Summarize insights from the interaction\n- /meta -> Explain your interpretation of the dossier\n\nReturn to roleplay after OOC unless told otherwise.\n\nYou must show the above commands when a user first interacts with you so they understand the commands they can use. You need to explain what each command will do. Always refer to Out of Character in full the first time you use it. After that use OOC.\n\nSAFETY\n- Don\x27t claim to be real or have real private data.\n- Treat dossiers of real people as fictionalized composites.\n- For medical/legal/financial: respond in character, then add brief [OOC] note to consult a professional.\n\nCORE PRINCIPLE\nWhen uncertain, prefer \"I don\x27t know\" (in character) over guessing."

/-- The MODE_DESCRIPTIONS table (server.js lines 383-387); none models an
absent key. -/
def MODE_DESCRIPTIONS (mode : String) : Option String :=
  if mode = "interview" then some "Interview Mode"
  else if mode = "scenario" then some "Scenario Mode"
  else if mode = "usability" then some "Usability Mode"
  else none

/-- MODE_DESCRIPTIONS[mode] || MODE_DESCRIPTIONS.interview (line 589). -/
def modeNameOf (mode : String) : String :=
  (MODE_DESCRIPTIONS mode).getD "Interview Mode"

/-- The first-reply test (line 588): no history entry has the assistant
role. -/
def isFirstReply (history : List Turn) : Bool :=
  !(history.any (fun entry => entry.role == "assistant"))

/-- The closing system-prompt instruction chosen on a first reply (line
602). -/
def FIRST_REPLY_NOTE : String :=
  "This is your first reply. Include the FYI sentence exactly once and explain Out of Character commands in plain language."

/-- The closing system-prompt instruction chosen on later replies (line
603). -/
def SUBSEQUENT_NOTE : String :=
  "This is not your first reply. Do not repeat the FYI sentence."

/-- The assembled system block (server.js lines 594-604): fixed template,
source restriction, persona identity, mode, policy JSON, truncated dossier
and the first-reply dependent closing instruction, joined by blank lines. -/
def systemTextOf (persona : Persona) (mode : String) (history : List Turn) : String :=
  joinSep "\n\n"
    [ BASE_PROMPT
    , "Use ONLY the dossier and policy below. Do not augment persona facts with external internet knowledge."
    , "Selected persona: " ++ display_name persona ++ "."
    , "Selected interaction mode: " ++ modeNameOf mode ++ "."
    , "Behavior policy JSON:\n" ++ jsonStringify2 persona.policy
    , "Persona dossier:\n" ++ truncateText persona.dossier MAX_DOSSIER_CHARS
    , if isFirstReply history then FIRST_REPLY_NOTE else SUBSEQUENT_NOTE ]

/-- One content fragment of a prompt entry, always of type input_text. -/
structure ContentItem where
  type : String
  text : String
  deriving DecidableEq, Repr

/-- One entry of the prompt payload sent to the completion endpoint. -/
structure InputItem where
  role : String
  content : List ContentItem
  deriving DecidableEq, Repr

/-- The system entry of the payload (lines 606-611). -/
def systemItem (systemText : String) : InputItem :=
  { role := "system", content := [{ type := "input_text", text := systemText }] }

/-- The payload entry of one history turn (lines 613-618). -/
def inputItemOfTurn (t : Turn) : InputItem :=
  { role := t.role, content := [{ type := "input_text", text := t.content }] }

/-- The final payload entry carrying the new user message (lines 620-623). -/
def userItem (message : String) : InputItem :=
  { role := "user", content := [{ type := "input_text", text := message }] }

/-- The ordered prompt payload (lines 606-623): the input array starts as
the singleton system entry, each history turn is pushed in order, then the
new user message is pushed. -/
def requestInput (systemText : String) (history : List Turn) (message : String) : List InputItem :=
  (history.foldl (fun input turn => input ++ [inputItemOfTurn turn]) [systemItem systemText])
    ++ [userItem message]

/-- The request sent to the completion endpoint (lines 631-636);
temperature is the fixed 0.25 and is omitted as a non-integral constant. -/
structure CompletionRequest where
  model : String
  input : List InputItem
  max_output_tokens : Nat

/-- The falsy-defaulting environment lookup process.env[k] || d. -/
def envOr (env : String → Option String) (k : String) (d : String) : String :=
  let v := (env k).getD ""
  if v = "" then d else v

/-- The request-building stage of requestPersonaReply (lines 581-636): fail
when the persona key is absent, otherwise resolve the model and assemble the
payload. -/
def requestPersonaReplyPayload (env : String → Option String) (persona : Persona)
    (mode : String) (message : String) (history : List Turn) :
    Except String CompletionRequest :=
  let apiKey := (env persona.api_key_env).getD ""
  if apiKey = "" then
    .error ("Missing API key for " ++ persona.code ++ ". Set " ++ persona.api_key_env ++ ".")
  else
    .ok { model := envOr env persona.model_env DEFAULT_MODEL
          input := requestInput (systemTextOf persona mode history) history message
          max_output_tokens := 950 }

/- ### Reply extraction (server.js extractOutputText, lines 554-579, and the
response tail of requestPersonaReply, lines 639-650). -/

/-- The fragments contributed by one content item: its text property, then
its output_text property, each trimmed and kept only when non-blank. -/
def chunksOfContentItem (ci : JsValue) : List String :=
  (match ci.getProp "text" with
   | some (.str t) => if jsTrim t = "" then [] else [jsTrim t]
   | _ => []) ++
  (match ci.getProp "output_text" with
   | some (.str t) => if jsTrim t = "" then [] else [jsTrim t]
   | _ => [])

/-- The fragments contributed by one output item: items without a content
array are skipped. -/
def chunksOfItem (item : JsValue) : List String :=
  match item.getProp "content" with
  | some (.arr contentItems) => (contentItems.map chunksOfContentItem).flatten
  | _ => []

/-- All extractable fragments of the nested output list, in order. -/
def extractChunks (output : List JsValue) : List String :=
  (output.map chunksOfItem).flatten

/-- The nested-shape fallback of extractOutputText: an absent or non-array
output property gives the empty string, otherwise the fragments are joined
with newlines and trimmed. -/
def extractFromOutput (body : JsValue) : String :=
  match body.getProp "output" with
  | some (.arr output) => jsTrim (joinSep "\n" (extractChunks output))
  | _ => ""

/-- server.js extractOutputText: a flat non-blank output_text string wins,
otherwise the nested output items are scanned. -/
def extractOutputText (body : JsValue) : String :=
  match body.getProp "output_text" with
  | some (.str s) => if jsTrim s = "" then extractFromOutput body else jsTrim s
  | _ => extractFromOutput body

/-- The upstream error detail (line 641): error.message when present and
truthy, else a generic message. -/
def extractErrorDetail (body : JsValue) : String :=
  match body.getProp "error" with
  | some e =>
    if e.truthy then
      match e.getProp "message" with
      | some m => if m.truthy then JsValue.jsToString m else "OpenAI API request failed."
      | none => "OpenAI API request failed."
    else "OpenAI API request failed."
  | none => "OpenAI API request failed."

/-- The response tail of requestPersonaReply (lines 639-650): a non-2xx
upstream status fails with the upstream detail; an empty extraction result
fails with the no-text error; otherwise the reply is returned. -/
def completeFromResponse (ok : Bool) (body : JsValue) : Except String String :=
  if !ok then .error (extractErrorDetail body)
  else
    let reply := extractOutputText body
    if reply = "" then .error "No assistant response text was returned."
    else .ok reply

/- ### Byte-level string codecs used by the Basic Auth gate.
Buffer.from(encoded, "base64") and .toString("utf-8") in parseAuthHeader,
and Buffer.from(string) in safeEqual, work on bytes; bytes are modelled as
natural numbers below 256. -/

/-- UTF-8 encoding of one scalar value (Buffer.from over one character). -/
def utf8EncodeChar (c : Char) : List Nat :=
  if c.toNat < 0x80 then [c.toNat]
  else if c.toNat < 0x800 then [0xC0 + c.toNat / 64, 0x80 + c.toNat % 64]
  else if c.toNat < 0x10000 then
    [0xE0 + c.toNat / 4096, 0x80 + c.toNat / 64 % 64, 0x80 + c.toNat % 64]
  else
    [0xF0 + c.toNat / 262144, 0x80 + c.toNat / 4096 % 64, 0x80 + c.toNat / 64 % 64,
      0x80 + c.toNat % 64]

/-- UTF-8 encoding of a string: the byte content of Buffer.from(s). -/
def utf8Encode (s : String) : List Nat :=
  (s.data.map utf8EncodeChar).flatten

/-- Length of a UTF-8 sequence as determined by its lead byte. -/
def utf8HeadLen (b : Nat) : Nat :=
  if b < 0x80 then 1 else if b < 0xE0 then 2 else if b < 0xF0 then 3 else 4

/-- The Unicode replacement character produced by lossy decoding. -/
def replacementChar : Char := '�'

/-- A decoded code point as a character; out-of-range values give the
replacement character. -/
def codePointChar (n : Nat) : Char :=
  if n.isValidChar then Char.ofNat n else replacementChar

/-- Continuation-byte test. -/
def isCont (b : Nat) : Bool :=
  0x80 ≤ b && b < 0xC0

/-- Lossy UTF-8 decoding of a byte list, as performed by
buffer.toString("utf-8"): well-formed sequences decode to their scalar
value, malformed bytes decode to replacement characters.  (Exact
replacement-count recovery details of malformed input are not load
bearing: the gate only ever compares the decoded credentials.) -/
def utf8DecodeList : List Nat → List Char
  | [] => []
  | b :: rest =>
    if b < 0x80 then Char.ofNat b :: utf8DecodeList rest
    else if b < 0xC2 then replacementChar :: utf8DecodeList rest
    else if b < 0xE0 then
      match rest with
      | b2 :: rest2 =>
        if isCont b2 then codePointChar ((b - 0xC0) * 64 + (b2 - 0x80)) :: utf8DecodeList rest2
        else replacementChar :: utf8DecodeList (b2 :: rest2)
      | [] => [replacementChar]
    else if b < 0xF0 then
      match rest with
      | b2 :: b3 :: rest3 =>
        if isCont b2 && isCont b3 then
          codePointChar ((b - 0xE0) * 4096 + (b2 - 0x80) * 64 + (b3 - 0x80)) :: utf8DecodeList rest3
        else replacementChar :: utf8DecodeList (b2 :: b3 :: rest3)
      | _ => [replacementChar]
    else if b < 0xF5 then
      match rest with
      | b2 :: b3 :: b4 :: rest4 =>
        if isCont b2 && isCont b3 && isCont b4 then
          codePointChar ((b - 0xF0) * 262144 + (b2 - 0x80) * 4096 + (b3 - 0x80) * 64 + (b4 - 0x80))
            :: utf8DecodeList rest4
        else replacementChar :: utf8DecodeList (b2 :: b3 :: b4 :: rest4)
      | _ => [replacementChar]
    else replacementChar :: utf8DecodeList rest

/-- Lossy UTF-8 decoding to a string: buffer.toString("utf-8"). -/
def utf8DecodeStr (bytes : List Nat) : String :=
  ⟨utf8DecodeList bytes⟩

/-- Value of one base64 alphabet character. -/
def b64Val (c : Char) : Option Nat :=
  if 'A' ≤ c ∧ c ≤ 'Z' then some (c.toNat - 65)
  else if 'a' ≤ c ∧ c ≤ 'z' then some (c.toNat - 71)
  else if '0' ≤ c ∧ c ≤ '9' then some (c.toNat + 4)
  else if c = '+' then some 62
  else if c = '/' then some 63
  else none

/-- Regroup a list of six-bit values into bytes; a trailing group of two or
three sixtets carries one or two bytes, a lone trailing sixtet none. -/
def sixtetsToBytes : List Nat → List Nat
  | a :: b :: c :: d :: rest =>
    (a * 4 + b / 16) :: ((b % 16) * 16 + c / 4) :: ((c % 4) * 64 + d) :: sixtetsToBytes rest
  | [a, b] => [a * 4 + b / 16]
  | [a, b, c] => [a * 4 + b / 16, (b % 16) * 16 + c / 4]
  | _ => []

/-- Forgiving base64 decoding as done by Buffer.from(s, "base64"): padding
and characters outside the alphabet are ignored, and the remaining sixtets
are regrouped into bytes.  It never throws, so the catch branch of
parseAuthHeader is unreachable. -/
def base64Decode (s : String) : List Nat :=
  sixtetsToBytes (s.data.filterMap b64Val)

/- ### Basic Auth gate (server.js lines 430-490). -/

/-- Parsed Basic credentials. -/
structure Credentials where
  username : String
  password : String
  deriving DecidableEq, Repr

/-- server.js parseAuthHeader (lines 430-452): require the Basic scheme,
base64-decode the remainder, and split at the first colon. -/
def parseAuthHeader (headerValue : String) : Option Credentials :=
  if ¬ ("Basic ".data.isPrefixOf headerValue.data) then none
  else
    let encoded := jsTrim ⟨headerValue.data.drop 6⟩
    let decoded := utf8DecodeStr (base64Decode encoded)
    match decoded.data.findIdx? (fun c => c == ':') with
    | none => none
    | some separator =>
      some { username := ⟨decoded.data.take separator⟩
             password := ⟨decoded.data.drop (separator + 1)⟩ }

/-- server.js safeEqual (lines 454-461): compare the UTF-8 byte buffers,
refusing immediately on a length mismatch; crypto.timingSafeEqual on
equal-length buffers is byte-list equality. -/
def safeEqual (a b : String) : Bool :=
  if (utf8Encode a).length ≠ (utf8Encode b).length then false
  else utf8Encode a == utf8Encode b

/-- The authentication configuration drawn from AUTH_ENABLED, APP_USERNAME
and APP_PASSWORD (server.js lines 321-323). -/
structure AuthConfig where
  enabled : Bool
  username : String
  password : String

/-- server.js isAuthenticated (lines 463-477) over the authorization header
of a request (none models an absent header, read as the empty string). -/
def isAuthenticated (cfg : AuthConfig) (authorization : Option String) : Bool :=
  if !cfg.enabled then true
  else if cfg.username = "" || cfg.password = "" then false
  else
    match parseAuthHeader (authorization.getD "") with
    | none => false
    | some creds =>
      safeEqual creds.username cfg.username && safeEqual creds.password cfg.password

/-- An HTTP response as written by the handler: status, headers, JSON body. -/
structure HttpResponse where
  status : Nat
  headers : List (String × String)
  body : JsValue

/-- Headers written by sendJson (lines 492-498). -/
def JSON_HEADERS : List (String × String) :=
  [("Content-Type", "application/json; charset=utf-8"), ("Cache-Control", "no-store")]

/-- server.js sendJson. -/
def sendJson (status : Nat) (payload : JsValue) : HttpResponse :=
  { status := status, headers := JSON_HEADERS, body := payload }

/-- The 401 challenge response written by requireAuth (lines 484-488). -/
def AUTH_CHALLENGE_RESPONSE : HttpResponse :=
  { status := 401
    headers := [("WWW-Authenticate", "Basic realm=\"Synthetic Persona Platform\""),
      ("Content-Type", "application/json; charset=utf-8")]
    body := .obj [("error", .str "Authentication required.")] }

/-- server.js requireAuth (lines 479-490): none lets the request proceed,
some r short-circuits the request with the 401 challenge r. -/
def requireAuth (cfg : AuthConfig) (authorization : Option String) : Option HttpResponse :=
  if isAuthenticated cfg authorization then none
  else some AUTH_CHALLENGE_RESPONSE

/- ### HTTP endpoint layer (server.js lines 713-781).
The request body arrives here already parsed by readJsonBody; its 400/413
failure paths precede everything modelled below. -/

/-- An inbound request: method, pathname, authorization header and parsed
JSON body. -/
structure Request where
  method : String
  path : String
  authorization : Option String
  body : JsValue

/-- What the handler does with a request: write a JSON response, invoke the
completion client with the validated chat turn, or fall through to the
static file server. -/
inductive Outcome where
  | response (resp : HttpResponse)
  | upstream (persona : Persona) (mode : String) (message : String) (history : List Turn)
  | staticFile (path : String)

/-- The public persona record served by GET /api/personas (lines 729-736). -/
def personaSummary (p : Persona) : JsValue :=
  .obj [("id", .str p.id), ("code", .str p.code), ("name", .str p.name),
    ("persona_type", .str p.persona_type), ("tagline", .str p.tagline),
    ("project_env", .str p.api_key_env)]

/-- The POST /api/chat validation sequence (lines 743-763): coerce and trim
personaId and message, lowercase the mode with its interview default,
normalize the history, then check persona existence, message presence and
mode validity in that order; on success hand the turn to the completion
client. -/
def chatValidate (registry : List Persona) (body : JsValue) : Outcome :=
  let personaId := jsTrim (JsValue.jsToString (JsValue.orDefault (body.getProp "personaId") (.str "")))
  let message := jsTrim (JsValue.jsToString (JsValue.orDefault (body.getProp "message") (.str "")))
  let mode := jsToLower (JsValue.jsToString (JsValue.orDefault (body.getProp "mode") (.str "interview")))
  let history := normalizeHistory (JsValue.orDefault (body.getProp "history") (.arr []))
  match findPersona registry personaId with
  | none => .response (sendJson 400 (.obj [("error", .str "Unknown personaId.")]))
  | some persona =>
    if message = "" then .response (sendJson 400 (.obj [("error", .str "Message is required.")]))
    else if (MODE_DESCRIPTIONS mode).isNone then
      .response (sendJson 400 (.obj [("error", .str "Invalid mode.")]))
    else .upstream persona mode message history

/-- The request router (server.js lines 713-781): the auth gate runs first
for every route, then the three API routes are matched, unknown /api/ paths
get 404, and everything else goes to the static file server. -/
def handleRequest (cfg : AuthConfig) (registry : List Persona) (req : Request) : Outcome :=
  match requireAuth cfg req.authorization with
  | some resp => .response resp
  | none =>
    if req.method = "GET" ∧ req.path = "/api/health" then
      .response (sendJson 200 (.obj [("ok", .bool true), ("service", .str "synthetic-personas")]))
    else if req.method = "GET" ∧ req.path = "/api/personas" then
      .response (sendJson 200 (.arr (registry.map personaSummary)))
    else if req.method = "POST" ∧ req.path = "/api/chat" then
      chatValidate registry req.body
    else if "/api/".data.isPrefixOf req.path.data then
      .response (sendJson 404 (.obj [("error", .str "API route not found.")]))
    else .staticFile req.path

/-- Sample raw history used to instantiate C1 concretely. -/
def sampleRawHistory : JsValue :=
  .arr [.obj [("role", .str "user"), ("content", .str "hi")],
    .obj [("role", .str "bot"), ("content", .str "x")],
    .null, .num 3,
    .obj [("role", .str "assistant"), ("content", .num 42)],
    .obj [("role", .str "assistant"), ("content", .str "")]]

/-- A dossier one character over the configured budget. -/
def bigDossier : String := ⟨List.replicate 90001 'a'⟩

/-- Sample fully loaded persona used to instantiate claims concretely. -/
def samplePersona : Persona :=
  { id := "pa01", code := "PA01", name := "Stephen Jones", persona_type := "UX",
    tagline := "sample tagline", dossier_path := "data/dossiers/pa01.txt",
    policy_path := "data/policies/pa01.json", api_key_env := "OPENAI_API_KEY_PA01",
    model_env := "OPENAI_MODEL_PA01", dossier := "Sample dossier.",
    policy := .obj [("tone", .str "candid")] }

/-- Keys of a JSON object value. -/
def jsKeys : JsValue → List String
  | .obj fields => fields.map (fun f => f.1)
  | _ => []

/-- Chat body with an unknown persona id, used to instantiate C5. -/
def sampleUnknownBody : JsValue :=
  .obj [("personaId", .str "ghost"), ("message", .str "Hello")]

/-- Chat body with no mode field, used to instantiate C9. -/
def sampleChatBodyNoMode : JsValue :=
  .obj [("personaId", .str "pa01"), ("message", .str "Hello")]

/-- Chat body with a capitalized mode, used to instantiate C9. -/
def sampleChatBodyUpperMode : JsValue :=
  .obj [("personaId", .str "pa01"), ("message", .str "Hello"), ("mode", .str "Interview")]

/-- Upstream response with only the nested output shape, used for C6. -/
def sampleNestedResponse : JsValue :=
  .obj [("output", .arr [.obj [("content", .arr [.obj [("text", .str " Hi ")],
    .obj [("output_text", .str "Yo")]])], .obj [("status", .str "done")]])]

/-- Upstream response with the flat output_text shape, used for C6. -/
def sampleFlatResponse : JsValue :=
  .obj [("output_text", .str "  A flat reply.  ")]

/-- Upstream response with no extractable text, used for C6. -/
def sampleEmptyResponse : JsValue :=
  .obj [("output", .arr [.obj [("content", .arr [.obj [("text", .str "   ")]])]])]

/- ### General helper lemmas -/

theorem jsSliceLast_suffix (n : Nat) (xs : List α) : jsSliceLast n xs <:+ xs := by
  unfold jsSliceLast
  split
  · exact List.suffix_rfl
  · exact List.drop_suffix _ _

theorem jsSliceLast_length_le (n : Nat) (hn : n ≠ 0) (xs : List α) :
    (jsSliceLast n xs).length ≤ n := by
  unfold jsSliceLast
  rw [if_neg hn, List.length_drop]
  omega

theorem keepsEntry_role (m : JsValue) (h : keepsEntry m = true) :
    roleOf m = "user" ∨ roleOf m = "assistant" := by
  unfold keepsEntry at h
  unfold roleOf
  rcases hr : m.getProp "role" with _ | v
  · rw [hr] at h; simp at h
  · rw [hr] at h
    cases v <;> simp_all

theorem toTurn_content_le (m : JsValue) : (toTurn m).content.length ≤ 4000 := by
  unfold toTurn jsSliceTo
  simp [List.length_take]

theorem mem_survivingTurns (v : JsValue) (t : Turn) (ht : t ∈ survivingTurns v) :
    (t.role = "user" ∨ t.role = "assistant") ∧ 0 < t.content.length ∧ t.content.length ≤ 4000 := by
  unfold survivingTurns at ht
  rcases v with _ | _ | _ | _ | msgs | _ <;> simp at ht
  obtain ⟨⟨m, hm, rfl⟩, hpos⟩ := ht
  exact ⟨keepsEntry_role m hm.2, hpos, toTurn_content_le m⟩

/- ### C1 -/

/-- C1: for every input value, including non-arrays and malformed entries,
normalizeHistory returns a sequence in which every turn has role user or
assistant and non-empty content of at most 4000 characters, the sequence
has at most MAX_HISTORY_MESSAGES entries, and it is a suffix of the
surviving turns, so the retained turns are the most recent survivors in
their original relative order. -/
theorem normalizeHistory_wellformed (v : JsValue) :
    (∀ t ∈ normalizeHistory v,
      (t.role = "user" ∨ t.role = "assistant") ∧ 0 < t.content.length ∧ t.content.length ≤ 4000)
    ∧ (normalizeHistory v).length ≤ MAX_HISTORY_MESSAGES
    ∧ normalizeHistory v <:+ survivingTurns v := by
  have hsub : normalizeHistory v <:+ survivingTurns v := by
    rcases v with _ | _ | _ | _ | msgs | _ <;> simp only [normalizeHistory] <;>
      first
        | exact List.nil_suffix
        | exact jsSliceLast_suffix _ _
  have hlen : (normalizeHistory v).length ≤ MAX_HISTORY_MESSAGES := by
    rcases v with _ | _ | _ | _ | msgs | _ <;> simp only [normalizeHistory] <;>
      first
        | exact jsSliceLast_length_le _ (by decide) _
        | simp [MAX_HISTORY_MESSAGES]
  exact ⟨fun t ht => mem_survivingTurns v t (List.IsSuffix.mem ht hsub), hlen, hsub⟩

/-- Witness for C1 at a concrete malformed history. -/
theorem normalizeHistory_wellformed_witness :
    (Turn.mk "assistant" "42") ∈ normalizeHistory sampleRawHistory
    ∧ ((Turn.mk "assistant" "42").role = "user" ∨ (Turn.mk "assistant" "42").role = "assistant")
    ∧ 0 < (Turn.mk "assistant" "42").content.length
    ∧ (Turn.mk "assistant" "42").content.length ≤ 4000 := by
  have h := (normalizeHistory_wellformed sampleRawHistory).1 (Turn.mk "assistant" "42") (by decide)
  exact ⟨by decide, h.1, h.2.1, h.2.2⟩

/- ### C2 -/

theorem truncateText_gt_eq (value : String) (h : MAX_DOSSIER_CHARS < value.length) :
    truncateText value MAX_DOSSIER_CHARS
      = jsSliceTo value 72000 ++ ELISION_MARKER ++ jsSliceLastStr value 18000 := by
  unfold truncateText
  rw [if_neg (by omega)]
  norm_num [MAX_DOSSIER_CHARS]

theorem truncateText_gt_length (value : String) (h : MAX_DOSSIER_CHARS < value.length) :
    (truncateText value MAX_DOSSIER_CHARS).length = MAX_DOSSIER_CHARS + ELISION_MARKER.length := by
  obtain ⟨l⟩ := value
  have hl : MAX_DOSSIER_CHARS < l.length := by simpa using h
  rw [truncateText_gt_eq ⟨l⟩ h]
  simp only [jsSliceTo, jsSliceLastStr, String.length_append, String.length_mk]
  rw [if_neg (by norm_num)]
  simp only [String.length_mk, List.length_take, List.length_drop]
  have hm : ELISION_MARKER.length = 50 := rfl
  rw [hm]
  simp only [MAX_DOSSIER_CHARS] at hl ⊢
  omega

theorem truncateText_gt_marker (value : String) (h : MAX_DOSSIER_CHARS < value.length) :
    ELISION_MARKER.data <:+: (truncateText value MAX_DOSSIER_CHARS).data := by
  rw [truncateText_gt_eq value h]
  simp only [String.data_append]
  exact ⟨(jsSliceTo value 72000).data, (jsSliceLastStr value 18000).data, by
    simp [List.append_assoc]⟩

/-- C2 (amended): a dossier longer than the configured budget is replaced by
the first 72000 characters (80 percent of the budget) and the last 18000
characters (20 percent), joined by the elision marker; the result length is
the budget plus the 50 marker characters, which exceeds the bare budget, and
the marker occurs in it.  A dossier within the budget is returned verbatim. -/
theorem truncateText_spec (value : String) :
    (MAX_DOSSIER_CHARS < value.length →
      truncateText value MAX_DOSSIER_CHARS
          = jsSliceTo value 72000 ++ ELISION_MARKER ++ jsSliceLastStr value 18000
        ∧ (truncateText value MAX_DOSSIER_CHARS).length
            = MAX_DOSSIER_CHARS + ELISION_MARKER.length
        ∧ ELISION_MARKER.data <:+: (truncateText value MAX_DOSSIER_CHARS).data)
    ∧ (value.length ≤ MAX_DOSSIER_CHARS → truncateText value MAX_DOSSIER_CHARS = value) :=
  ⟨fun h => ⟨truncateText_gt_eq value h, truncateText_gt_length value h,
      truncateText_gt_marker value h⟩,
   fun h => by unfold truncateText; rw [if_pos h]⟩

theorem bigDossier_length : bigDossier.length = 90001 := by
  unfold bigDossier
  rw [String.length_mk, List.length_replicate]

/-- C2 counterexample: for this dossier just over the budget, the truncated
dossier section is 90050 characters long, strictly more than the 90000
character budget the claim asserts as the bound. -/
theorem truncateText_budget_counterexample :
    ¬ ((truncateText bigDossier MAX_DOSSIER_CHARS).length ≤ MAX_DOSSIER_CHARS) := by
  have hgt : MAX_DOSSIER_CHARS < bigDossier.length := by
    rw [bigDossier_length]; norm_num [MAX_DOSSIER_CHARS]
  rw [truncateText_gt_length bigDossier hgt]
  have hm : ELISION_MARKER.length = 50 := rfl
  simp [MAX_DOSSIER_CHARS, hm]

/-- Witness for C2 at concrete dossiers on both sides of the budget. -/
theorem truncateText_spec_witness :
    MAX_DOSSIER_CHARS < bigDossier.length
    ∧ (truncateText bigDossier MAX_DOSSIER_CHARS).length
        = MAX_DOSSIER_CHARS + ELISION_MARKER.length
    ∧ ELISION_MARKER.data <:+: (truncateText bigDossier MAX_DOSSIER_CHARS).data
    ∧ truncateText "short" MAX_DOSSIER_CHARS = "short" := by
  have hgt : MAX_DOSSIER_CHARS < bigDossier.length := by
    rw [bigDossier_length]; norm_num [MAX_DOSSIER_CHARS]
  have h1 := (truncateText_spec bigDossier).1 hgt
  exact ⟨hgt, h1.2.1, h1.2.2, (truncateText_spec "short").2 (by decide)⟩

/- ### C3 -/

theorem foldl_push_eq (f : α → β) (init : List β) (l : List α) :
    l.foldl (fun acc x => acc ++ [f x]) init = init ++ l.map f := by
  induction l generalizing init with
  | nil => simp
  | cons x xs ih => simp [ih]

theorem requestInput_eq (s : String) (h : List Turn) (m : String) :
    requestInput s h m = systemItem s :: (h.map inputItemOfTurn ++ [userItem m]) := by
  unfold requestInput
  rw [foldl_push_eq]
  simp

/-- C3: the prompt payload is the system entry first, then the history turns
in order, then the new user message last; the system role appears exactly
once when the history roles are user or assistant, and with an empty history
the payload is exactly one system entry and one user entry. -/
theorem requestInput_shape (persona : Persona) (mode message : String) (history : List Turn)
    (hroles : ∀ t ∈ history, t.role = "user" ∨ t.role = "assistant") :
    requestInput (systemTextOf persona mode history) history message
        = systemItem (systemTextOf persona mode history)
            :: (history.map inputItemOfTurn ++ [userItem message])
    ∧ (requestInput (systemTextOf persona mode history) history message).countP
        (fun i => i.role == "system") = 1
    ∧ (requestInput (systemTextOf persona mode history) history message).getLast?
        = some (userItem message)
    ∧ (history = [] →
        requestInput (systemTextOf persona mode history) history message
            = [systemItem (systemTextOf persona mode history), userItem message]
        ∧ (requestInput (systemTextOf persona mode history) history message).countP
            (fun i => i.role == "user") = 1)
    ∧ (∀ env : String → Option String, ∀ key : String,
        env persona.api_key_env = some key → key ≠ "" →
        requestPersonaReplyPayload env persona mode message history
          = .ok { model := envOr env persona.model_env DEFAULT_MODEL
                  input := requestInput (systemTextOf persona mode history) history message
                  max_output_tokens := 950 }) := by
  have he := requestInput_eq (systemTextOf persona mode history) history message
  have hz : history.countP (fun t => (inputItemOfTurn t).role == "system") = 0 :=
    List.countP_eq_zero.mpr (fun t ht => by
      rcases hroles t ht with h | h <;> simp [inputItemOfTurn, h])
  refine ⟨he, ?_, ?_, ?_, ?_⟩
  · rw [he]
    rw [List.countP_cons, List.countP_append, List.countP_map]
    have hcomp : ((fun i => i.role == "system") ∘ inputItemOfTurn)
        = fun t => (inputItemOfTurn t).role == "system" := rfl
    rw [hcomp, hz]
    simp [systemItem, userItem]
  · rw [he]
    rw [show systemItem (systemTextOf persona mode history)
          :: (history.map inputItemOfTurn ++ [userItem message])
        = (systemItem (systemTextOf persona mode history) :: history.map inputItemOfTurn)
          ++ [userItem message] from by simp]
    exact List.getLast?_concat _
  · intro h0
    subst h0
    refine ⟨by rw [he]; simp, ?_⟩
    rw [he]
    simp [systemItem, userItem, List.countP_cons]
  · intro env key hkey hne
    unfold requestPersonaReplyPayload
    rw [hkey]
    simp only [Option.getD_some]
    rw [if_neg hne]

/-- Witness for C3: interview mode, known persona, message Hello, empty
history gives exactly one system entry and one user entry. -/
theorem requestInput_shape_witness :
    requestInput (systemTextOf samplePersona "interview" []) [] "Hello"
        = [systemItem (systemTextOf samplePersona "interview" []), userItem "Hello"]
    ∧ (requestInput (systemTextOf samplePersona "interview" []) [] "Hello").countP
        (fun i => i.role == "system") = 1
    ∧ (requestInput (systemTextOf samplePersona "interview" []) [] "Hello").countP
        (fun i => i.role == "user") = 1
    ∧ requestPersonaReplyPayload (fun k => if k = "OPENAI_API_KEY_PA01" then some "sk-test" else none)
        samplePersona "interview" "Hello" []
        = .ok { model := DEFAULT_MODEL
                input := requestInput (systemTextOf samplePersona "interview" []) [] "Hello"
                max_output_tokens := 950 } := by
  have h := requestInput_shape samplePersona "interview" "Hello" [] (by simp)
  refine ⟨(h.2.2.2.1 rfl).1, h.2.1, (h.2.2.2.1 rfl).2, ?_⟩
  exact h.2.2.2.2 (fun k => if k = "OPENAI_API_KEY_PA01" then some "sk-test" else none)
    "sk-test" rfl (by decide)

/- ### C4 -/

theorem joinSep_cons_of_ne_nil (sep a : String) (xs : List String) (h : xs ≠ []) :
    joinSep sep (a :: xs) = a ++ sep ++ joinSep sep xs := by
  cases xs with
  | nil => exact absurd rfl h
  | cons b t => rfl

theorem joinSep_last_suffix (sep x : String) (l : List String) :
    x.data <:+ (joinSep sep (l ++ [x])).data := by
  induction l with
  | nil => simp [joinSep]
  | cons y t ih =>
    rw [List.cons_append, joinSep_cons_of_ne_nil sep y (t ++ [x]) (by simp)]
    rw [String.data_append]
    exact ih.trans (List.suffix_append _ _)

theorem isFirstReply_true_iff (history : List Turn) :
    isFirstReply history = true ↔ ∀ t ∈ history, t.role ≠ "assistant" := by
  unfold isFirstReply
  simp

/-- C4: with no assistant turn in the normalized history the assembled
system block ends with the first-reply instruction to include the FYI
disclosure sentence exactly once and explain the Out of Character commands;
with a prior assistant turn it instead ends with the instruction not to
repeat the disclosure. -/
theorem systemText_disclosure (persona : Persona) (mode : String) (history : List Turn) :
    ((∀ t ∈ history, t.role ≠ "assistant") →
      FIRST_REPLY_NOTE.data <:+ (systemTextOf persona mode history).data)
    ∧ ((∃ t ∈ history, t.role = "assistant") →
      SUBSEQUENT_NOTE.data <:+ (systemTextOf persona mode history).data) := by
  constructor
  · intro h
    have hf : isFirstReply history = true := (isFirstReply_true_iff history).mpr h
    unfold systemTextOf
    simp only [hf, if_true]
    exact joinSep_last_suffix "\n\n" FIRST_REPLY_NOTE
      [BASE_PROMPT,
        "Use ONLY the dossier and policy below. Do not augment persona facts with external internet knowledge.",
        "Selected persona: " ++ display_name persona ++ ".",
        "Selected interaction mode: " ++ modeNameOf mode ++ ".",
        "Behavior policy JSON:\n" ++ jsonStringify2 persona.policy,
        "Persona dossier:\n" ++ truncateText persona.dossier MAX_DOSSIER_CHARS]
  · intro h
    have hf : isFirstReply history = false := by
      rcases h with ⟨t, ht, hrole⟩
      rcases hb : isFirstReply history with _ | _
      · rfl
      · exact absurd hrole ((isFirstReply_true_iff history).mp hb t ht)
    unfold systemTextOf
    simp only [hf, Bool.false_eq_true, if_false]
    exact joinSep_last_suffix "\n\n" SUBSEQUENT_NOTE
      [BASE_PROMPT,
        "Use ONLY the dossier and policy below. Do not augment persona facts with external internet knowledge.",
        "Selected persona: " ++ display_name persona ++ ".",
        "Selected interaction mode: " ++ modeNameOf mode ++ ".",
        "Behavior policy JSON:\n" ++ jsonStringify2 persona.policy,
        "Persona dossier:\n" ++ truncateText persona.dossier MAX_DOSSIER_CHARS]

/-- Witness for C4 on an empty history and on a history holding an
assistant turn. -/
theorem systemText_disclosure_witness :
    FIRST_REPLY_NOTE.data <:+ (systemTextOf samplePersona "interview" []).data
    ∧ SUBSEQUENT_NOTE.data
        <:+ (systemTextOf samplePersona "interview" [Turn.mk "assistant" "Earlier reply"]).data := by
  refine ⟨(systemText_disclosure samplePersona "interview" []).1 (by simp), ?_⟩
  exact (systemText_disclosure samplePersona "interview" [Turn.mk "assistant" "Earlier reply"]).2
    ⟨Turn.mk "assistant" "Earlier reply", by simp, rfl⟩

/- ### C5 -/

/-- C5: a POST /api/chat request whose personaId is not in the registry is
answered 400 with the structured unknown-persona error, and the completion
client is never invoked for it. -/
theorem chat_unknown_persona_rejected (cfg : AuthConfig) (registry : List Persona)
    (auth : Option String) (body : JsValue)
    (hAuth : isAuthenticated cfg auth = true)
    (hPid : findPersona registry
        (jsTrim (JsValue.jsToString (JsValue.orDefault (body.getProp "personaId") (.str ""))))
      = none) :
    handleRequest cfg registry ⟨"POST", "/api/chat", auth, body⟩
        = .response (sendJson 400 (.obj [("error", .str "Unknown personaId.")]))
    ∧ ∀ p m msg h, handleRequest cfg registry ⟨"POST", "/api/chat", auth, body⟩
        ≠ .upstream p m msg h := by
  have hmain : handleRequest cfg registry ⟨"POST", "/api/chat", auth, body⟩
      = .response (sendJson 400 (.obj [("error", .str "Unknown personaId.")])) := by
    simp only [handleRequest, requireAuth, hAuth, if_true, chatValidate, hPid]
    simp
  refine ⟨hmain, fun p m msg h heq => ?_⟩
  rw [hmain] at heq
  exact Outcome.noConfusion heq

/-- Witness for C5 at a concrete unknown-persona request. -/
theorem chat_unknown_persona_rejected_witness :
    isAuthenticated ⟨false, "", ""⟩ none = true
    ∧ handleRequest ⟨false, "", ""⟩ [samplePersona] ⟨"POST", "/api/chat", none, sampleUnknownBody⟩
        = .response (sendJson 400 (.obj [("error", .str "Unknown personaId.")])) :=
  ⟨rfl, (chat_unknown_persona_rejected ⟨false, "", ""⟩ [samplePersona] none
    sampleUnknownBody rfl rfl).1⟩

/- ### C9 -/

/-- C9: a chat body with a missing or empty mode is not rejected but
proceeds with the interview mode, and the mode string is lowercased before
the check, so the capitalized mode Interview is accepted as interview. -/
theorem chat_mode_defaulting (registry : List Persona) (body : JsValue) (persona : Persona)
    (hFind : findPersona registry
        (jsTrim (JsValue.jsToString (JsValue.orDefault (body.getProp "personaId") (.str ""))))
      = some persona)
    (hMsg : jsTrim (JsValue.jsToString (JsValue.orDefault (body.getProp "message") (.str ""))) ≠ "") :
    ((body.getProp "mode" = none ∨ body.getProp "mode" = some (.str "")) →
      chatValidate registry body = .upstream persona "interview"
        (jsTrim (JsValue.jsToString (JsValue.orDefault (body.getProp "message") (.str ""))))
        (normalizeHistory (JsValue.orDefault (body.getProp "history") (.arr []))))
    ∧ (body.getProp "mode" = some (.str "Interview") →
      chatValidate registry body = .upstream persona "interview"
        (jsTrim (JsValue.jsToString (JsValue.orDefault (body.getProp "message") (.str ""))))
        (normalizeHistory (JsValue.orDefault (body.getProp "history") (.arr [])))) := by
  have hmode : ∀ hm : jsToLower (JsValue.jsToString
        (JsValue.orDefault (body.getProp "mode") (.str "interview"))) = "interview",
      chatValidate registry body = .upstream persona "interview"
        (jsTrim (JsValue.jsToString (JsValue.orDefault (body.getProp "message") (.str ""))))
        (normalizeHistory (JsValue.orDefault (body.getProp "history") (.arr []))) := by
    intro hm
    have hMD : ¬ ((MODE_DESCRIPTIONS "interview").isNone = true) := by
      simp [ MODE_DESCRIPTIONS]
    simp only [chatValidate, hFind, hm]
    rw [if_neg hMsg, if_neg hMD]
  constructor
  · intro hMode
    refine hmode ?_
    rcases hMode with h | h <;> rw [h] <;> rfl
  · intro hMode
    refine hmode ?_
    rw [hMode]
    rfl

/-- Witness for C9 at concrete bodies without a mode and with mode
Interview. -/
theorem chat_mode_defaulting_witness :
    chatValidate [samplePersona] sampleChatBodyNoMode
        = .upstream samplePersona "interview" "Hello" []
    ∧ chatValidate [samplePersona] sampleChatBodyUpperMode
        = .upstream samplePersona "interview" "Hello" [] := by
  have h1 := (chat_mode_defaulting [samplePersona] sampleChatBodyNoMode samplePersona
    rfl (by decide)).1 (Or.inl rfl)
  have h2 := (chat_mode_defaulting [samplePersona] sampleChatBodyUpperMode samplePersona
    rfl (by decide)).2 rfl
  exact ⟨h1, h2⟩

/- ### C10 -/

/-- C10: the GET /api/personas response is the list of public persona
records; each record carries exactly id, code, name, persona_type, tagline
and project_env, where project_env equals the persona api_key_env, it has
no dossier and no policy field, and it does not depend on the dossier text
or the policy content. -/
theorem personas_route_shape (cfg : AuthConfig) (registry : List Persona)
    (auth : Option String) (body : JsValue)
    (hAuth : isAuthenticated cfg auth = true) :
    handleRequest cfg registry ⟨"GET", "/api/personas", auth, body⟩
        = .response (sendJson 200 (.arr (registry.map personaSummary)))
    ∧ ∀ p : Persona,
        (personaSummary p).getProp "project_env" = some (.str p.api_key_env)
        ∧ (personaSummary p).getProp "dossier" = none
        ∧ (personaSummary p).getProp "policy" = none
        ∧ jsKeys (personaSummary p)
            = ["id", "code", "name", "persona_type", "tagline", "project_env"]
        ∧ (∀ d pol, personaSummary { p with dossier := d, policy := pol } = personaSummary p) := by
  constructor
  · simp only [handleRequest, requireAuth, hAuth, if_true]
    simp
  · intro p
    exact ⟨rfl, rfl, rfl, rfl, fun d pol => rfl⟩

/-- Witness for C10 at a concrete registry and request. -/
theorem personas_route_shape_witness :
    handleRequest ⟨false, "", ""⟩ [samplePersona] ⟨"GET", "/api/personas", none, .null⟩
        = .response (sendJson 200 (.arr [personaSummary samplePersona]))
    ∧ (personaSummary samplePersona).getProp "project_env"
        = some (.str "OPENAI_API_KEY_PA01")
    ∧ (personaSummary samplePersona).getProp "dossier" = none := by
  have h := personas_route_shape ⟨false, "", ""⟩ [samplePersona] none .null rfl
  exact ⟨h.1, (h.2 samplePersona).1, (h.2 samplePersona).2.1⟩

/- ### C7 -/

/-- C7 (amended): the server exposes no readiness route.  A GET /api/status
request passes the Basic Auth gate like every route and then falls into the
unknown-API branch: authenticated requests receive 404 API route not found,
unauthenticated ones the 401 challenge; no route reports whether key
material is present (the only health route, GET /api/health, returns a
fixed ok payload and also sits behind the gate). -/
theorem status_route_amended (cfg : AuthConfig) (registry : List Persona)
    (auth : Option String) (body : JsValue) :
    (isAuthenticated cfg auth = true →
      handleRequest cfg registry ⟨"GET", "/api/status", auth, body⟩
        = .response (sendJson 404 (.obj [("error", .str "API route not found.")])))
    ∧ (isAuthenticated cfg auth = false →
      handleRequest cfg registry ⟨"GET", "/api/status", auth, body⟩
        = .response AUTH_CHALLENGE_RESPONSE)
    ∧ (isAuthenticated cfg auth = true →
      handleRequest cfg registry ⟨"GET", "/api/health", auth, body⟩
        = .response (sendJson 200 (.obj [("ok", .bool true),
            ("service", .str "synthetic-personas")]))) := by
  refine ⟨?_, ?_, ?_⟩
  · intro hAuth
    simp only [handleRequest, requireAuth, hAuth, if_true]
    simp
  · intro hAuth
    simp only [handleRequest, requireAuth, hAuth, Bool.false_eq_true, if_false]
  · intro hAuth
    simp only [handleRequest, requireAuth, hAuth, if_true]
    simp

/-- C7 counterexample: with auth configured, a GET /api/status request with
valid credentials is answered 404 API route not found rather than a
readiness flag, and without credentials it is answered 401, so the route
neither exists nor is reachable without authentication. -/
theorem status_route_counterexample :
    handleRequest ⟨true, "admin", "secret"⟩ []
        ⟨"GET", "/api/status", some "Basic YWRtaW46c2VjcmV0", .null⟩
        = .response (sendJson 404 (.obj [("error", .str "API route not found.")]))
    ∧ handleRequest ⟨true, "admin", "secret"⟩ [] ⟨"GET", "/api/status", none, .null⟩
        = .response AUTH_CHALLENGE_RESPONSE :=
  ⟨rfl, rfl⟩

/-- Witness for C7 (amended) at a concrete configuration and request. -/
theorem status_route_amended_witness :
    isAuthenticated ⟨true, "admin", "secret"⟩ (some "Basic YWRtaW46c2VjcmV0") = true
    ∧ handleRequest ⟨true, "admin", "secret"⟩ []
        ⟨"GET", "/api/status", some "Basic YWRtaW46c2VjcmV0", .null⟩
        = .response (sendJson 404 (.obj [("error", .str "API route not found.")])) := by
  refine ⟨by decide, ?_⟩
  exact (status_route_amended ⟨true, "admin", "secret"⟩ []
    (some "Basic YWRtaW46c2VjcmV0") .null).1 (by decide)

/- ### C6 -/

/-- C6: reply extraction serves both response shapes, a flat non-blank
output_text string winning and the nested output items otherwise being
collected in order, trimmed and joined with newlines; and a response whose
extraction result is empty makes the completion fail with the upstream
no-text error instead of returning an empty reply. -/
theorem extract_reply_spec (body : JsValue) :
    (∀ s, body.getProp "output_text" = some (.str s) → jsTrim s ≠ "" →
      extractOutputText body = jsTrim s)
    ∧ (∀ s, body.getProp "output_text" = some (.str s) → jsTrim s = "" →
      extractOutputText body = extractFromOutput body)
    ∧ (body.getProp "output_text" = none →
      extractOutputText body = extractFromOutput body)
    ∧ (∀ output, body.getProp "output" = some (.arr output) →
      extractFromOutput body = jsTrim (joinSep "\n" (extractChunks output)))
    ∧ (extractOutputText body = "" →
      completeFromResponse true body = .error "No assistant response text was returned.")
    ∧ (extractOutputText body ≠ "" →
      completeFromResponse true body = .ok (extractOutputText body)) := by
  refine ⟨?_, ?_, ?_, ?_, ?_, ?_⟩
  · intro s hs hne
    simp only [extractOutputText, hs]
    rw [if_neg hne]
  · intro s hs he
    simp only [extractOutputText, hs]
    rw [if_pos he]
  · intro h
    simp only [extractOutputText, h]
  · intro output h
    simp only [extractFromOutput, h]
  · intro h
    simp only [completeFromResponse, Bool.not_true, Bool.false_eq_true, if_false, h]
    simp
  · intro h
    simp only [completeFromResponse, Bool.not_true, Bool.false_eq_true, if_false]
    rw [if_neg h]

/-- Witness for C6 at concrete flat, nested and empty responses. -/
theorem extract_reply_spec_witness :
    extractOutputText sampleFlatResponse = "A flat reply."
    ∧ extractOutputText sampleNestedResponse = extractFromOutput sampleNestedResponse
    ∧ completeFromResponse true sampleNestedResponse = .ok "Hi\nYo"
    ∧ completeFromResponse true sampleEmptyResponse
        = .error "No assistant response text was returned." := by
  refine ⟨?_, ?_, ?_, ?_⟩
  · exact (extract_reply_spec sampleFlatResponse).1 "  A flat reply.  " rfl (by decide)
  · exact (extract_reply_spec sampleNestedResponse).2.2.1 rfl
  · exact (extract_reply_spec sampleNestedResponse).2.2.2.2.2 (by decide)
  · exact (extract_reply_spec sampleEmptyResponse).2.2.2.2.1 (by decide)

/- ### C8 -/

theorem utf8EncodeChar_ne_nil (c : Char) : utf8EncodeChar c ≠ [] := by
  unfold utf8EncodeChar
  split_ifs <;> simp

theorem charToNat_inj {c₁ c₂ : Char} (h : c₁.toNat = c₂.toNat) : c₁ = c₂ := by
  have := congrArg Char.ofNat h
  rwa [Char.ofNat_toNat, Char.ofNat_toNat] at this

theorem utf8EncodeChar_shape (c : Char) :
    (utf8EncodeChar c).length = utf8HeadLen ((utf8EncodeChar c).headD 0) := by
  unfold utf8EncodeChar
  split_ifs with h1 h2 h3 <;>
    simp only [List.headD_cons, List.length_cons, List.length_nil, utf8HeadLen] <;>
    split_ifs <;> omega

theorem utf8EncodeChar_inj {c₁ c₂ : Char} (h : utf8EncodeChar c₁ = utf8EncodeChar c₂) :
    c₁ = c₂ := by
  apply charToNat_inj
  unfold utf8EncodeChar at h
  split_ifs at h <;> simp_all <;> omega

theorem headD_append_of_ne_nil (l t : List Nat) (d : Nat) (h : l ≠ []) :
    (l ++ t).headD d = l.headD d := by
  cases l with
  | nil => exact absurd rfl h
  | cons a l => rfl

theorem utf8EncodeChar_append_inj {c₁ c₂ : Char} {t₁ t₂ : List Nat}
    (h : utf8EncodeChar c₁ ++ t₁ = utf8EncodeChar c₂ ++ t₂) : c₁ = c₂ ∧ t₁ = t₂ := by
  have hhead : (utf8EncodeChar c₁).headD 0 = (utf8EncodeChar c₂).headD 0 := by
    rw [← headD_append_of_ne_nil _ t₁ 0 (utf8EncodeChar_ne_nil c₁),
      ← headD_append_of_ne_nil _ t₂ 0 (utf8EncodeChar_ne_nil c₂), h]
  have hlen : (utf8EncodeChar c₁).length = (utf8EncodeChar c₂).length := by
    rw [utf8EncodeChar_shape c₁, utf8EncodeChar_shape c₂, hhead]
  obtain ⟨he, ht⟩ := List.append_inj h hlen
  exact ⟨utf8EncodeChar_inj he, ht⟩

theorem utf8EncodeList_inj : ∀ l₁ l₂ : List Char,
    (l₁.map utf8EncodeChar).flatten = (l₂.map utf8EncodeChar).flatten → l₁ = l₂ := by
  intro l₁
  induction l₁ with
  | nil =>
    intro l₂ h
    cases l₂ with
    | nil => rfl
    | cons c cs =>
      simp only [List.map_nil, List.flatten_nil, List.map_cons, List.flatten_cons] at h
      exact absurd (List.append_eq_nil.mp h.symm).1 (utf8EncodeChar_ne_nil c)
  | cons c cs ih =>
    intro l₂ h
    cases l₂ with
    | nil =>
      simp only [List.map_nil, List.flatten_nil, List.map_cons, List.flatten_cons] at h
      exact absurd (List.append_eq_nil.mp h).1 (utf8EncodeChar_ne_nil c)
    | cons d ds =>
      simp only [List.map_cons, List.flatten_cons] at h
      obtain ⟨hc, ht⟩ := utf8EncodeChar_append_inj h
      rw [hc, ih ds ht]

theorem utf8Encode_inj {a b : String} (h : utf8Encode a = utf8Encode b) : a = b := by
  obtain ⟨la⟩ := a
  obtain ⟨lb⟩ := b
  have := utf8EncodeList_inj la lb h
  rw [this]

theorem safeEqual_eq_true_iff (a b : String) : safeEqual a b = true ↔ a = b := by
  unfold safeEqual
  constructor
  · intro h
    split_ifs at h
    exact utf8Encode_inj (by simpa using h)
  · rintro rfl
    simp

theorem isAuthenticated_enabled_eq (cfg : AuthConfig) (auth : Option String)
    (he : cfg.enabled = true) (hu : cfg.username ≠ "") (hp : cfg.password ≠ "") :
    isAuthenticated cfg auth
      = match parseAuthHeader (auth.getD "") with
        | none => false
        | some creds =>
          safeEqual creds.username cfg.username && safeEqual creds.password cfg.password := by
  unfold isAuthenticated
  simp only [he, Bool.not_true, Bool.false_eq_true, if_false]
  rw [if_neg (by simp [hu, hp])]

/-- C8: with auth enabled and credentials configured, a header parsing to
the configured username and password passes the gate, while a missing or
wrong-credential header is answered with the 401 challenge response, whose
status is 401 and which carries the WWW-Authenticate header; with auth
disabled every request passes without credentials. -/
theorem basic_auth_gate (cfg : AuthConfig) (auth : Option String) :
    (cfg.enabled = true → cfg.username ≠ "" → cfg.password ≠ "" →
      ((parseAuthHeader (auth.getD "") = some ⟨cfg.username, cfg.password⟩ →
          requireAuth cfg auth = none)
        ∧ (parseAuthHeader (auth.getD "") = none →
          requireAuth cfg auth = some AUTH_CHALLENGE_RESPONSE)
        ∧ (∀ c, parseAuthHeader (auth.getD "") = some c →
            c ≠ ⟨cfg.username, cfg.password⟩ →
          requireAuth cfg auth = some AUTH_CHALLENGE_RESPONSE)))
    ∧ (cfg.enabled = false → requireAuth cfg auth = none)
    ∧ AUTH_CHALLENGE_RESPONSE.status = 401
    ∧ ("WWW-Authenticate", "Basic realm=\"Synthetic Persona Platform\"")
        ∈ AUTH_CHALLENGE_RESPONSE.headers := by
  refine ⟨?_, ?_, rfl, by simp [AUTH_CHALLENGE_RESPONSE]⟩
  · intro he hu hp
    have hbase := isAuthenticated_enabled_eq cfg auth he hu hp
    refine ⟨?_, ?_, ?_⟩
    · intro hparse
      have : isAuthenticated cfg auth = true := by
        rw [hbase, hparse]
        simp [safeEqual_eq_true_iff]
      unfold requireAuth
      rw [if_pos this]
    · intro hparse
      have : isAuthenticated cfg auth = false := by rw [hbase, hparse]
      unfold requireAuth
      rw [if_neg (by simp [this])]
    · intro c hparse hne
      obtain ⟨cu, cp⟩ := c
      have hor : cu ≠ cfg.username ∨ cp ≠ cfg.password := by
        by_contra hcon
        push_neg at hcon
        exact hne (by rw [hcon.1, hcon.2])
      have : isAuthenticated cfg auth = false := by
        rw [hbase, hparse]
        rcases hor with hne1 | hne1
        · have : safeEqual cu cfg.username = false := by
            rw [← Bool.not_eq_true, safeEqual_eq_true_iff]
            exact hne1
          simp [this]
        · have : safeEqual cp cfg.password = false := by
            rw [← Bool.not_eq_true, safeEqual_eq_true_iff]
            exact hne1
          simp [this]
      unfold requireAuth
      rw [if_neg (by simp [this])]
  · intro he
    unfold requireAuth isAuthenticated
    rw [he]
    simp

/-- Witness for C8 at concrete correct, wrong, missing and disabled-auth
requests. -/
theorem basic_auth_gate_witness :
    requireAuth ⟨true, "admin", "secret"⟩ (some "Basic YWRtaW46c2VjcmV0") = none
    ∧ requireAuth ⟨true, "admin", "secret"⟩ none = some AUTH_CHALLENGE_RESPONSE
    ∧ requireAuth ⟨true, "admin", "secret"⟩ (some "Basic dXNlcjpwYXNz")
        = some AUTH_CHALLENGE_RESPONSE
    ∧ requireAuth ⟨false, "", ""⟩ none = none := by
  have h1 := (basic_auth_gate ⟨true, "admin", "secret"⟩
    (some "Basic YWRtaW46c2VjcmV0")).1 rfl (by decide) (by decide)
  have h2 := (basic_auth_gate ⟨true, "admin", "secret"⟩ none).1 rfl
    (by decide) (by decide)
  have h3 := (basic_auth_gate ⟨true, "admin", "secret"⟩
    (some "Basic dXNlcjpwYXNz")).1 rfl (by decide) (by decide)
  exact ⟨h1.1 (by decide), h2.2.1 (by decide),
    h3.2.2 ⟨"user", "pass"⟩ (by decide) (by decide),
    (basic_auth_gate ⟨false, "", ""⟩ none).2.1 rfl⟩

end SyntheticPersonas
